import Mathlib

/-!
Shallow embedding of `pathlib-artifactory` (versions 0.4.1 under `src/` and the
earlier revision at the repository root) and proofs about the claims of its
specification.

Modelling conventions:
* Python strings are Lean `String`s; Python `None` is `Option.none`.
* The HTTP session is modelled as a pure function from (URI, request index) to
  a response; every `session.get` call consumes one index, so the index of the
  next request doubles as a running count of requests issued so far.
* Exceptions are modelled with `Except`; state mutated before a raise survives
  the raise, so every operation returns `Except PyErr result × state × count`.
* Generators are evaluated eagerly (as the finite lists they produce).
-/

/-- One entry of the `children` array of a directory listing response:
a relative `uri` (such as `/a`) and a `folder` flag. -/
structure Child where
  uri : String
  folder : Bool
deriving DecidableEq, Repr

/-- The JSON body of a 2xx metadata response, as far as version 0.4.1 reads it:
an optional `size` key and an optional `children` key. -/
structure StorageData where
  size : Option Int
  children : Option (List Child)
deriving DecidableEq, Repr

/-- A metadata-endpoint HTTP response: 2xx with a JSON body, 404, or any other
non-2xx status (which `raise_for_status` turns into an exception). -/
inductive Response where
  | ok (data : StorageData)
  | notFound
  | httpError
deriving DecidableEq, Repr

/-- A content-endpoint HTTP response: 2xx with a raw streaming body, 404, or
another non-2xx status. -/
inductive ContentResponse where
  | ok (body : String)
  | notFound
  | httpError
deriving DecidableEq, Repr

/-- The metadata server: answer to the request for a URI when it arrives as the
n-th request of the session. -/
abbrev Server := String → Nat → Response

/-- The content server, same indexing convention as `Server`. -/
abbrev CServer := String → Nat → ContentResponse

/-- Python exceptions that the embedded code can raise. -/
inductive PyErr where
  | httpError
  | typeError
  | attributeError
  | oserror (errno : Nat) (msg : String) (path : String)
  | unsupported (msg : String)
deriving DecidableEq, Repr

/-- Python truthiness of a value that is `False`, `True` or `None`. -/
def truthy : Option Bool → Bool
  | some b => b
  | none => false

/-- Python `not` applied to a value that is `False`, `True` or `None`. -/
def pyNot : Option Bool → Bool
  | some b => !b
  | none => true

/-- The Status Cache of version 0.4.1 (`ArtifactoryPathInfo.__slots__`):
metadata URI plus four lazily filled fields, `none` meaning Python `None`. -/
structure ArtifactoryPathInfo where
  _uri : String
  _exists : Option Bool
  _is_dir : Option Bool
  _size : Option Int
  _children : Option (List Child)
deriving DecidableEq, Repr

/-- `ArtifactoryPathInfo.__init__(uri, exists=None, is_dir=None)`. -/
def ArtifactoryPathInfo.init (uri : String) (ex is_dir : Option Bool) :
    ArtifactoryPathInfo :=
  { _uri := uri, _exists := ex, _is_dir := is_dir, _size := none, _children := none }

/-- A freshly created Status Cache (all fields unset). -/
def freshInfo (uri : String) : ArtifactoryPathInfo :=
  ArtifactoryPathInfo.init uri none none

/-- `ArtifactoryPathInfo._query`: one GET of the metadata URI.  404 sets
`_exists = False` and nothing else; any other non-2xx raises after the request
was already issued; 2xx fills every field from the JSON body, deciding
file-vs-directory purely by presence of the `size` key. -/
def ArtifactoryPathInfo._query (server : Server) (i : ArtifactoryPathInfo)
    (n : Nat) : Except PyErr Unit × ArtifactoryPathInfo × Nat :=
  match server i._uri n with
  | .notFound => (.ok (), { i with _exists := some false }, n + 1)
  | .httpError => (.error .httpError, i, n + 1)
  | .ok data =>
      (.ok (), { i with
        _exists := some true,
        _is_dir := some data.size.isNone,
        _size := some (match data.size with | none => 0 | some s => s),
        _children := some (data.children.getD []) }, n + 1)

/-- `ArtifactoryPathInfo.exists`: query when `_exists` is unset, then return
the stored flag. -/
def ArtifactoryPathInfo.exists' (server : Server) (i : ArtifactoryPathInfo)
    (n : Nat) : Except PyErr Bool × ArtifactoryPathInfo × Nat :=
  if i._exists = none then
    match i._query server n with
    | (.error e, i, n) => (.error e, i, n)
    | (.ok _, i, n) => (.ok (i._exists.getD false), i, n)
  else (.ok (i._exists.getD false), i, n)

/-- `ArtifactoryPathInfo.is_dir`: `False` when `exists()` is false, otherwise
query when `_is_dir` is unset and return the stored kind (which is Python
`None` when a seeded-existing entry answers 404 on the kind query). -/
def ArtifactoryPathInfo.is_dir (server : Server) (i : ArtifactoryPathInfo)
    (n : Nat) : Except PyErr (Option Bool) × ArtifactoryPathInfo × Nat :=
  match i.exists' server n with
  | (.error e, i, n) => (.error e, i, n)
  | (.ok b, i, n) =>
    if !b then (.ok (some false), i, n)
    else if i._is_dir = none then
      match i._query server n with
      | (.error e, i, n) => (.error e, i, n)
      | (.ok _, i, n) => (.ok i._is_dir, i, n)
    else (.ok i._is_dir, i, n)

/-- `ArtifactoryPathInfo.is_file`: like `is_dir` but returns `not self._is_dir`. -/
def ArtifactoryPathInfo.is_file (server : Server) (i : ArtifactoryPathInfo)
    (n : Nat) : Except PyErr Bool × ArtifactoryPathInfo × Nat :=
  match i.exists' server n with
  | (.error e, i, n) => (.error e, i, n)
  | (.ok b, i, n) =>
    if !b then (.ok false, i, n)
    else if i._is_dir = none then
      match i._query server n with
      | (.error e, i, n) => (.error e, i, n)
      | (.ok _, i, n) => (.ok (pyNot i._is_dir), i, n)
    else (.ok (pyNot i._is_dir), i, n)

/-- `ArtifactoryPathInfo.is_symlink`: always `False`, no request. -/
def ArtifactoryPathInfo.is_symlink (_i : ArtifactoryPathInfo) : Bool := false

/-- `ArtifactoryPathInfo.size`: query when `_size` is unset, then return the
stored size (Python `None` when the query answered 404). -/
def ArtifactoryPathInfo.size (server : Server) (i : ArtifactoryPathInfo)
    (n : Nat) : Except PyErr (Option Int) × ArtifactoryPathInfo × Nat :=
  if i._size = none then
    match i._query server n with
    | (.error e, i, n) => (.error e, i, n)
    | (.ok _, i, n) => (.ok i._size, i, n)
  else (.ok i._size, i, n)

/-- `ArtifactoryPathInfo.children`: query when `_children` is unset, then yield
`(name, seeded child info)` pairs; iterating a still-`None` `_children` (the
404 case) raises a `TypeError`. -/
def ArtifactoryPathInfo.children (server : Server) (i : ArtifactoryPathInfo)
    (n : Nat) :
    Except PyErr (List (String × ArtifactoryPathInfo)) × ArtifactoryPathInfo × Nat :=
  match (if i._children = none then i._query server n else (.ok (), i, n)) with
  | (.error e, i, n) => (.error e, i, n)
  | (.ok _, i, n) =>
    match i._children with
    | none => (.error .typeError, i, n)
    | some cs =>
      (.ok (cs.map fun c =>
        (c.uri, ArtifactoryPathInfo.init (i._uri ++ c.uri) (some true) (some c.folder))),
       i, n)

/-- CPython `posixpath.join(a, *p)`: fold each component onto the path,
restarting at an absolute component, inserting `/` unless the accumulated path
is empty or already ends with `/`. -/
def posixJoin (a : String) (p : List String) : String :=
  p.foldl (fun path b =>
    if b.startsWith "/" then b
    else if path = "" || path.endsWith "/" then path ++ b
    else path ++ "/" ++ b) a

/-- The Remote Path of version 0.4.1 (`ArtifactoryPath.__slots__`): path
segments, the optional Status Cache, and the base repository URI. -/
structure ArtifactoryPath where
  _segments : List String
  _info : Option ArtifactoryPathInfo
  base_uri : String
deriving DecidableEq, Repr

/-- `ArtifactoryPath.__vfspath__`: `posixpath.join(*self._segments)` when there
are segments, the empty string otherwise. -/
def vfspath (p : ArtifactoryPath) : String :=
  match p._segments with
  | [] => ""
  | a :: rest => posixJoin a rest

/-- `ArtifactoryPath.__eq__` between two `ArtifactoryPath` instances: base URIs
equal and rendered paths equal. -/
def ArtifactoryPath.eq (a b : ArtifactoryPath) : Bool :=
  a.base_uri == b.base_uri && vfspath a == vfspath b

/-- `ArtifactoryPath.__hash__`: the hash of the pair (base URI, rendered path),
with Lean's string hash standing in for Python's. -/
def ArtifactoryPath.hashVal (p : ArtifactoryPath) : UInt64 :=
  Hashable.hash (p.base_uri, vfspath p)

/-- `ArtifactoryPath.as_uri`: base URI concatenated with the rendered path. -/
def ArtifactoryPath.as_uri (p : ArtifactoryPath) : String :=
  p.base_uri ++ vfspath p

/-- `ArtifactoryPath.with_segments`: same base URI, new segments, given cache. -/
def ArtifactoryPath.with_segments (p : ArtifactoryPath) (segs : List String)
    (info : Option ArtifactoryPathInfo) : ArtifactoryPath :=
  { _segments := segs, _info := info, base_uri := p.base_uri }

/-- Splits a character list at the first occurrence of `sep`, like Python
`s.split(sep, 1)`; `none` when `sep` does not occur (Python then raises at the
two-element unpacking). -/
def splitOnce (sep : List Char) : List Char → Option (List Char × List Char)
  | [] => none
  | c :: cs =>
    if sep.isPrefixOf (c :: cs) then some ([], (c :: cs).drop sep.length)
    else
      match splitOnce sep cs with
      | some (h, t) => some (c :: h, t)
      | none => none

/-- Python `u.split(sep, 1)` on strings, successful only when `sep` occurs. -/
def pySplit1 (sep u : String) : Option (String × String) :=
  (splitOnce sep.data u.data).map fun ht => (String.mk ht.1, String.mk ht.2)

/-- `ArtifactoryPath.from_uri`: split on the literal `/artifactory/` marker;
head plus marker becomes the base URI, `/` plus tail the single segment. -/
def ArtifactoryPath.from_uri (uri : String) : Option ArtifactoryPath :=
  match pySplit1 "/artifactory/" uri with
  | none => none
  | some (head, tail) =>
      some { _segments := ["/" ++ tail], _info := none,
             base_uri := head ++ "/artifactory" }

/-- `ArtifactoryPath.info`: return the cache, creating it on first access with
the metadata URI `{base_uri}/api/storage{vfspath(self)}`. -/
def ArtifactoryPath.info (p : ArtifactoryPath) :
    ArtifactoryPathInfo × ArtifactoryPath :=
  match p._info with
  | some i => (i, p)
  | none =>
      let i := freshInfo (p.base_uri ++ "/api/storage" ++ vfspath p)
      (i, { p with _info := some i })

/-- `ArtifactoryPath.exists`: delegate to the (lazily created) cache. -/
def ArtifactoryPath.exists' (server : Server) (p : ArtifactoryPath) (n : Nat) :
    Except PyErr Bool × ArtifactoryPath × Nat :=
  match p.info with
  | (i, p) =>
    match i.exists' server n with
    | (r, i, n) => (r, { p with _info := some i }, n)

/-- `ArtifactoryPath.is_dir`: delegate to the (lazily created) cache. -/
def ArtifactoryPath.is_dir (server : Server) (p : ArtifactoryPath) (n : Nat) :
    Except PyErr (Option Bool) × ArtifactoryPath × Nat :=
  match p.info with
  | (i, p) =>
    match i.is_dir server n with
    | (r, i, n) => (r, { p with _info := some i }, n)

/-- `ArtifactoryPath.is_file`: delegate to the (lazily created) cache. -/
def ArtifactoryPath.is_file (server : Server) (p : ArtifactoryPath) (n : Nat) :
    Except PyErr Bool × ArtifactoryPath × Nat :=
  match p.info with
  | (i, p) =>
    match i.is_file server n with
    | (r, i, n) => (r, { p with _info := some i }, n)

/-- `ArtifactoryPath.iterdir`: version 0.4.1 reads `self._info` directly (an
`AttributeError` on Python `None` when the cache was never created), checks
existence then kind, and otherwise builds one child path per `children()`
entry via `with_segments(vfspath(self) + uri, info=info)`. -/
def ArtifactoryPath.iterdir (server : Server) (p : ArtifactoryPath) (n : Nat) :
    Except PyErr (List ArtifactoryPath) × ArtifactoryPath × Nat :=
  match p._info with
  | none => (.error .attributeError, p, n)
  | some i =>
    match i.exists' server n with
    | (.error e, i, n) => (.error e, { p with _info := some i }, n)
    | (.ok b, i, n) =>
      let p := { p with _info := some i }
      if !b then
        (.error (.oserror 2 "File not found" p.as_uri), p, n)
      else
        match i.is_dir server n with
        | (.error e, i, n) => (.error e, { p with _info := some i }, n)
        | (.ok d, i, n) =>
          let p := { p with _info := some i }
          if !(truthy d) then
            (.error (.oserror 20 "Not a directory" p.as_uri), p, n)
          else
            match i.children server n with
            | (.error e, i, n) => (.error e, { p with _info := some i }, n)
            | (.ok cs, i, n) =>
              let p := { p with _info := some i }
              (.ok (cs.map fun c =>
                p.with_segments [vfspath p ++ c.1] (some c.2)), p, n)

/-- `ArtifactoryPath.__open_reader__`: one streaming GET of the content URI,
404 becoming a not-found `OSError` carrying the rendered path. -/
def ArtifactoryPath.open_reader (cserver : CServer) (p : ArtifactoryPath)
    (n : Nat) : Except PyErr String × Nat :=
  match cserver p.as_uri n with
  | .notFound => (.error (.oserror 2 "File not found" (vfspath p)), n + 1)
  | .httpError => (.error .httpError, n + 1)
  | .ok body => (.ok body, n + 1)

/-- `ArtifactoryPath.readlink`: always an `EINVAL` `OSError`, no request. -/
def ArtifactoryPath.readlink (p : ArtifactoryPath) : Except PyErr Unit :=
  .error (.oserror 22 "Not a symlink" p.as_uri)

namespace legacy

/-- The `checksums` sub-object of a storage response, earlier revision. -/
structure Checksums where
  md5 : Option String
  sha1 : Option String
  sha256 : Option String
deriving DecidableEq, Repr

/-- The JSON body of a 2xx storage response as read by the earlier revision:
the keys `ArtifactoryStat.from_storage_response` touches. -/
structure StorageJson where
  size : Option Int
  children : Option (List Child)
  created : String
  lastModified : String
  createdBy : String
  modifiedBy : String
  checksums : Option Checksums
  mimeType : Option String
deriving DecidableEq, Repr

/-- A metadata response of the earlier revision. -/
inductive Response where
  | ok (data : StorageJson)
  | notFound
  | httpError
deriving DecidableEq, Repr

/-- The earlier revision's metadata server. -/
abbrev Server := String → Nat → legacy.Response

/-- `_parse_datetime`: a trailing `Z` becomes `+00:00`; the resulting ISO
string stands in for the parsed datetime value. -/
def _parse_datetime (date_str : String) : String :=
  if date_str.endsWith "Z" then date_str.dropRight 1 ++ "+00:00" else date_str

/-- The `ArtifactoryStat` dataclass of the earlier revision. -/
structure ArtifactoryStat where
  created : String
  modified : String
  created_by : String
  modified_by : String
  size : Int
  is_dir : Bool
  children : Option (List String)
  md5 : Option String
  sha1 : Option String
  sha256 : Option String
  mime_type : Option String
deriving DecidableEq, Repr

/-- `ArtifactoryStat.from_storage_response`: kind from presence of `size`,
size defaulting to 0, children as entry URIs with the leading character
dropped, checksums and mime type passed through. -/
def ArtifactoryStat.from_storage_response (data : StorageJson) : ArtifactoryStat :=
  let checksums := data.checksums.getD { md5 := none, sha1 := none, sha256 := none }
  { created := _parse_datetime data.created,
    modified := _parse_datetime data.lastModified,
    created_by := data.createdBy,
    modified_by := data.modifiedBy,
    size := data.size.getD 0,
    is_dir := data.size.isNone,
    children := data.children.map (List.map fun c => c.uri.drop 1),
    md5 := checksums.md5,
    sha1 := checksums.sha1,
    sha256 := checksums.sha256,
    mime_type := data.mimeType }

/-- `ArtifactoryStat.st_mode`: `S_IFDIR` (0o40000) or `S_IFREG` (0o100000). -/
def ArtifactoryStat.st_mode (st : ArtifactoryStat) : Nat :=
  if st.is_dir then 16384 else 32768

/-- The earlier revision's `ArtifactoryPath`: segment storage and string
rendering live in the external path-base collaborator, so the model keeps the
rendered path string (`str(self)`) plus the base URI. -/
structure ArtifactoryPath where
  str : String
  base_uri : String
deriving DecidableEq, Repr

/-- A file object returned by `open`: the raw byte stream, or the stream
wrapped in a text decoder when `b` is not in the mode. -/
inductive FileObj where
  | binary (body : String)
  | text (body : String)
deriving DecidableEq, Repr

/-- The earlier revision's `stat`: one GET of
`{base_uri}/api/storage{self}`, 404 becoming a not-found `OSError`, other
non-2xx raising, 2xx parsed by `from_storage_response`. -/
def ArtifactoryPath.stat (server : legacy.Server) (p : legacy.ArtifactoryPath)
    (n : Nat) : Except PyErr ArtifactoryStat × Nat :=
  match server (p.base_uri ++ "/api/storage" ++ p.str) n with
  | .notFound => (.error (.oserror 2 "File not found" p.str), n + 1)
  | .httpError => (.error .httpError, n + 1)
  | .ok data => (.ok (ArtifactoryStat.from_storage_response data), n + 1)

/-- The earlier revision's `open`: non-default buffering is unsupported; the
mode with `b`, `t`, `U` removed must be exactly `r`, otherwise unsupported with
no request; read mode stats first (raising `EISDIR` on a directory), then
streams the content URI, 404 becoming not-found, and wraps the body in a text
decoder unless `b` is in the mode. -/
def ArtifactoryPath.open' (server : legacy.Server) (cserver : CServer)
    (p : legacy.ArtifactoryPath) (mode : String) (buffering : Int) (n : Nat) :
    Except PyErr FileObj × Nat :=
  if buffering ≠ -1 then
    (.error (.unsupported ("Unsupported buffering: " ++ toString buffering)), n)
  else
    let action := String.mk (mode.data.filter fun c => !(c ∈ ['b', 't', 'U']))
    if action = "r" then
      match p.stat server n with
      | (.error e, n) => (.error e, n)
      | (.ok st, n) =>
        if st.is_dir then (.error (.oserror 21 "Is a directory" p.str), n)
        else
          match cserver (p.base_uri ++ p.str) n with
          | .notFound => (.error (.oserror 2 "File not found" p.str), n + 1)
          | .httpError => (.error .httpError, n + 1)
          | .ok body =>
            if mode.data.contains 'b' then (.ok (.binary body), n + 1)
            else (.ok (.text body), n + 1)
    else (.error (.unsupported ("Unsupported mode: " ++ mode)), n)

end legacy

/-- One call of the three boolean Status Cache queries. -/
inductive QOp where
  | qExists
  | qIsDir
  | qIsFile
deriving DecidableEq, Repr

/-- Runs one boolean query, normalising each Python return value (`True`,
`False` or `None`) to an `Option Bool`. -/
def applyQOp (server : Server) (op : QOp) (i : ArtifactoryPathInfo) (n : Nat) :
    Except PyErr (Option Bool) × ArtifactoryPathInfo × Nat :=
  match op with
  | .qExists =>
    match i.exists' server n with
    | (.error e, i, n) => (.error e, i, n)
    | (.ok b, i, n) => (.ok (some b), i, n)
  | .qIsDir => i.is_dir server n
  | .qIsFile =>
    match i.is_file server n with
    | (.error e, i, n) => (.error e, i, n)
    | (.ok b, i, n) => (.ok (some b), i, n)

/-- Runs a finite sequence of boolean queries in order, collecting results. -/
def runQOps (server : Server) :
    List QOp → ArtifactoryPathInfo → Nat →
    Except PyErr (List (Option Bool)) × ArtifactoryPathInfo × Nat
  | [], i, n => (.ok [], i, n)
  | op :: ops, i, n =>
    match applyQOp server op i n with
    | (.error e, i, n) => (.error e, i, n)
    | (.ok r, i, n) =>
      match runQOps server ops i n with
      | (.error e, i, n) => (.error e, i, n)
      | (.ok rs, i, n) => (.ok (r :: rs), i, n)

/-- One call of any of the five Status Cache operations. -/
inductive FOp where
  | fExists
  | fIsDir
  | fIsFile
  | fSize
  | fChildren
deriving DecidableEq, Repr

/-- Result of one Status Cache operation. -/
inductive FRes where
  | b (r : Option Bool)
  | sz (r : Option Int)
  | ch (r : List (String × ArtifactoryPathInfo))
deriving DecidableEq, Repr

/-- Runs one Status Cache operation. -/
def applyFOp (server : Server) (op : FOp) (i : ArtifactoryPathInfo) (n : Nat) :
    Except PyErr FRes × ArtifactoryPathInfo × Nat :=
  match op with
  | .fExists =>
    match i.exists' server n with
    | (.error e, i, n) => (.error e, i, n)
    | (.ok b, i, n) => (.ok (.b (some b)), i, n)
  | .fIsDir =>
    match i.is_dir server n with
    | (.error e, i, n) => (.error e, i, n)
    | (.ok r, i, n) => (.ok (.b r), i, n)
  | .fIsFile =>
    match i.is_file server n with
    | (.error e, i, n) => (.error e, i, n)
    | (.ok b, i, n) => (.ok (.b (some b)), i, n)
  | .fSize =>
    match i.size server n with
    | (.error e, i, n) => (.error e, i, n)
    | (.ok r, i, n) => (.ok (.sz r), i, n)
  | .fChildren =>
    match i.children server n with
    | (.error e, i, n) => (.error e, i, n)
    | (.ok r, i, n) => (.ok (.ch r), i, n)

/-- Runs a finite sequence of Status Cache operations in order. -/
def runFOps (server : Server) :
    List FOp → ArtifactoryPathInfo → Nat →
    Except PyErr (List FRes) × ArtifactoryPathInfo × Nat
  | [], i, n => (.ok [], i, n)
  | op :: ops, i, n =>
    match applyFOp server op i n with
    | (.error e, i, n) => (.error e, i, n)
    | (.ok r, i, n) =>
      match runFOps server ops i n with
      | (.error e, i, n) => (.error e, i, n)
      | (.ok rs, i, n) => (.ok (r :: rs), i, n)

/-- A server that answers every request with 404. -/
def server404 : Server := fun _ _ => Response.notFound

/-- A server whose answers are always 2xx file or directory bodies or 404,
never a status that `raise_for_status` would turn into an exception. -/
def GoodServer (server : Server) : Prop :=
  ∀ u n, server u n ≠ Response.httpError

/-- A cache state from which none of `exists`, `is_dir`, `is_file` issues a
request: known nonexistent, or known existent with known kind. -/
def resolvedB (i : ArtifactoryPathInfo) : Bool :=
  i._exists == some false || (i._exists == some true && i._is_dir.isSome)

/-- Request budget still spendable by the three boolean queries. -/
def budget (i : ArtifactoryPathInfo) : Nat :=
  if resolvedB i then 0 else 1

theorem budget_le_one (i : ArtifactoryPathInfo) : budget i ≤ 1 := by
  unfold budget; split <;> omega

theorem applyQOp_ok (server : Server) (hs : GoodServer server) (op : QOp)
    (i : ArtifactoryPathInfo) (n : Nat) :
    ∃ r, (applyQOp server op i n).1 = .ok r := by
  obtain ⟨u, e, d, sz, ch⟩ := i
  have hu := hs u n
  cases hq : server u n with
  | httpError => exact absurd hq hu
  | notFound =>
    cases op <;> rcases e with _ | _ | _ <;> rcases d with _ | _ | _ <;>
      simp [applyQOp, ArtifactoryPathInfo.exists', ArtifactoryPathInfo.is_dir,
        ArtifactoryPathInfo.is_file, ArtifactoryPathInfo._query, hq, pyNot]
  | ok data =>
    cases op <;> rcases e with _ | _ | _ <;> rcases d with _ | _ | _ <;>
      simp [applyQOp, ArtifactoryPathInfo.exists', ArtifactoryPathInfo.is_dir,
        ArtifactoryPathInfo.is_file, ArtifactoryPathInfo._query, hq, pyNot]

theorem applyQOp_budget (server : Server) (hs : GoodServer server) (op : QOp)
    (i : ArtifactoryPathInfo) (n : Nat) :
    (applyQOp server op i n).2.2 + budget (applyQOp server op i n).2.1 ≤
      n + budget i := by
  obtain ⟨u, e, d, sz, ch⟩ := i
  have hu := hs u n
  cases hq : server u n with
  | httpError => exact absurd hq hu
  | notFound =>
    cases op <;> rcases e with _ | _ | _ <;> rcases d with _ | _ | _ <;>
      simp [applyQOp, ArtifactoryPathInfo.exists', ArtifactoryPathInfo.is_dir,
        ArtifactoryPathInfo.is_file, ArtifactoryPathInfo._query, hq, budget,
        resolvedB, pyNot]
  | ok data =>
    cases op <;> rcases e with _ | _ | _ <;> rcases d with _ | _ | _ <;>
      simp [applyQOp, ArtifactoryPathInfo.exists', ArtifactoryPathInfo.is_dir,
        ArtifactoryPathInfo.is_file, ArtifactoryPathInfo._query, hq, budget,
        resolvedB, pyNot]

theorem runQOps_good (server : Server) (hs : GoodServer server) :
    ∀ (ops : List QOp) (i : ArtifactoryPathInfo) (n : Nat),
    ∃ rs i' n', runQOps server ops i n = (.ok rs, i', n') ∧
      n' + budget i' ≤ n + budget i := by
  intro ops
  induction ops with
  | nil => intro i n; exact ⟨[], i, n, rfl, Nat.le_refl _⟩
  | cons op ops ih =>
    intro i n
    obtain ⟨r, hr⟩ := applyQOp_ok server hs op i n
    have hb := applyQOp_budget server hs op i n
    rcases hA : applyQOp server op i n with ⟨fst, i1, n1⟩
    rw [hA] at hr hb
    simp only at hr hb
    subst hr
    obtain ⟨rs, i2, n2, h2, hb2⟩ := ih i1 n1
    refine ⟨r :: rs, i2, n2, ?_, by omega⟩
    simp only [runQOps, hA, h2]

theorem applyQOp_nonexistent (server : Server) (op : QOp)
    (i : ArtifactoryPathInfo) (h : i._exists = some false) (n : Nat) :
    applyQOp server op i n = (.ok (some false), i, n) := by
  obtain ⟨u, e, d, sz, ch⟩ := i
  simp only at h
  subst h
  cases op <;>
    simp [applyQOp, ArtifactoryPathInfo.exists', ArtifactoryPathInfo.is_dir,
      ArtifactoryPathInfo.is_file, pyNot]

theorem runQOps_nonexistent (server : Server) (i : ArtifactoryPathInfo)
    (h : i._exists = some false) :
    ∀ (ops : List QOp) (n : Nat),
    runQOps server ops i n = (.ok (ops.map fun _ => some false), i, n) := by
  intro ops
  induction ops with
  | nil => intro n; rfl
  | cons op ops ih =>
    intro n
    simp only [runQOps, applyQOp_nonexistent server op i h, ih, List.map]

/-- C1: on a Status Cache that is freshly created or pre-seeded (any
constructor arguments for existence and kind), any finite sequence of
`exists()`, `is_dir()` and `is_file()` calls, in any order and with
repetitions, issues at most one metadata GET request in total, whenever every
server answer is a 2xx file body, a 2xx directory body, or 404. -/
theorem claim_C1 (server : Server) (hs : GoodServer server) (u : String)
    (ex is_dir : Option Bool) (ops : List QOp) :
    ∃ rs i' n',
      runQOps server ops (ArtifactoryPathInfo.init u ex is_dir) 0 =
        (.ok rs, i', n') ∧ n' ≤ 1 := by
  obtain ⟨rs, i', n', h, hb⟩ :=
    runQOps_good server hs ops (ArtifactoryPathInfo.init u ex is_dir) 0
  have hle := budget_le_one (ArtifactoryPathInfo.init u ex is_dir)
  exact ⟨rs, i', n', h, by omega⟩

theorem claim_C1_witness :
    ∃ rs i' n',
      runQOps server404 [QOp.qExists, QOp.qIsDir, QOp.qIsFile]
        (ArtifactoryPathInfo.init "u" none none) 0 = (.ok rs, i', n') ∧
      n' ≤ 1 :=
  claim_C1 server404 (fun _ _ h => Response.noConfusion h) "u" none none
    [QOp.qExists, QOp.qIsDir, QOp.qIsFile]

/-- C4: when the single metadata query of a fresh Status Cache answers 404,
every `exists()`, `is_dir()` and `is_file()` call returns `False`, and any
sequence of such calls after the first one issues no further request: the
total request count stays at 1. -/
theorem claim_C4 (server : Server) (u : String)
    (hserver : ∀ m, server u m = Response.notFound)
    (op0 : QOp) (ops : List QOp) :
    runQOps server (op0 :: ops) (freshInfo u) 0 =
      (.ok ((op0 :: ops).map fun _ => some false),
       { _uri := u, _exists := some false, _is_dir := none, _size := none,
         _children := none }, 1) := by
  have h1 : applyQOp server op0 (freshInfo u) 0 =
      (.ok (some false),
       { _uri := u, _exists := some false, _is_dir := none, _size := none,
         _children := none }, 1) := by
    cases op0 <;>
      simp [applyQOp, freshInfo, ArtifactoryPathInfo.init,
        ArtifactoryPathInfo.exists', ArtifactoryPathInfo.is_dir,
        ArtifactoryPathInfo.is_file, ArtifactoryPathInfo._query, hserver 0,
        pyNot]
  have h2 := runQOps_nonexistent server
    { _uri := u, _exists := some false, _is_dir := none, _size := none,
      _children := none } rfl ops 1
  simp only [runQOps, h1, h2, List.map]

theorem claim_C4_witness :
    runQOps server404 [QOp.qExists, QOp.qIsDir, QOp.qIsFile] (freshInfo "u") 0 =
      (.ok [some false, some false, some false],
       { _uri := "u", _exists := some false, _is_dir := none, _size := none,
         _children := none }, 1) :=
  claim_C4 server404 "u" (fun _ => rfl) QOp.qExists [QOp.qIsDir, QOp.qIsFile]

/-- A server that always answers with the file body `{size: 42}`. -/
def serverFile42 : Server :=
  fun _ _ => Response.ok { size := some 42, children := none }

/-- A server that always answers with the directory listing
`{children: [{uri: "/a", folder: true}, {uri: "/b", folder: false}]}`. -/
def serverDirAB : Server :=
  fun _ _ => Response.ok
    { size := none,
      children := some [{ uri := "/a", folder := true },
                        { uri := "/b", folder := false }] }

/-- C5: when the metadata query of a fresh Status Cache answers 2xx with the
JSON body `{size: 42}`, `is_file()` returns `True`, `is_dir()` returns
`False`, and `size()` returns 42, each with exactly the one query; the kind is
read off the presence of the `size` key alone. -/
theorem claim_C5 (server : Server) (u : String) (n0 : Nat)
    (hserver : ∀ m, server u m =
      Response.ok { size := some 42, children := none }) :
    ArtifactoryPathInfo.is_file server (freshInfo u) n0 =
      (.ok true,
       { _uri := u, _exists := some true, _is_dir := some false,
         _size := some 42, _children := some [] }, n0 + 1) ∧
    ArtifactoryPathInfo.is_dir server (freshInfo u) n0 =
      (.ok (some false),
       { _uri := u, _exists := some true, _is_dir := some false,
         _size := some 42, _children := some [] }, n0 + 1) ∧
    ArtifactoryPathInfo.size server (freshInfo u) n0 =
      (.ok (some 42),
       { _uri := u, _exists := some true, _is_dir := some false,
         _size := some 42, _children := some [] }, n0 + 1) := by
  refine ⟨?_, ?_, ?_⟩ <;>
    simp [ArtifactoryPathInfo.is_file, ArtifactoryPathInfo.is_dir,
      ArtifactoryPathInfo.size, ArtifactoryPathInfo.exists',
      ArtifactoryPathInfo._query, freshInfo, ArtifactoryPathInfo.init,
      hserver n0, pyNot]

theorem claim_C5_witness :
    ArtifactoryPathInfo.is_file serverFile42 (freshInfo "u") 0 =
      (.ok true,
       { _uri := "u", _exists := some true, _is_dir := some false,
         _size := some 42, _children := some [] }, 1) ∧
    ArtifactoryPathInfo.is_dir serverFile42 (freshInfo "u") 0 =
      (.ok (some false),
       { _uri := "u", _exists := some true, _is_dir := some false,
         _size := some 42, _children := some [] }, 1) ∧
    ArtifactoryPathInfo.size serverFile42 (freshInfo "u") 0 =
      (.ok (some 42),
       { _uri := "u", _exists := some true, _is_dir := some false,
         _size := some 42, _children := some [] }, 1) :=
  claim_C5 serverFile42 "u" 0 (fun _ => rfl)

/-- C10: when the metadata query of a fresh Status Cache answers 2xx with a
JSON body without a `size` key (any directory body), `size()` returns exactly
0: the implementation fixes the directory size at zero. -/
theorem claim_C10 (server : Server) (u : String) (n0 : Nat)
    (ch : Option (List Child))
    (hserver : ∀ m, server u m = Response.ok { size := none, children := ch }) :
    ArtifactoryPathInfo.size server (freshInfo u) n0 =
      (.ok (some 0),
       { _uri := u, _exists := some true, _is_dir := some true,
         _size := some 0, _children := some (ch.getD []) }, n0 + 1) := by
  simp [ArtifactoryPathInfo.size, ArtifactoryPathInfo._query, freshInfo,
    ArtifactoryPathInfo.init, hserver n0]

theorem claim_C10_witness :
    ArtifactoryPathInfo.size serverDirAB (freshInfo "u") 0 =
      (.ok (some 0),
       { _uri := "u", _exists := some true, _is_dir := some true,
         _size := some 0,
         _children := some [{ uri := "/a", folder := true },
                            { uri := "/b", folder := false }] }, 1) :=
  claim_C10 serverDirAB "u" 0
    (some [{ uri := "/a", folder := true }, { uri := "/b", folder := false }])
    (fun _ => rfl)

/-- A cache state in which every field has been populated, as a 2xx query
leaves it. -/
def fullyResolved (i : ArtifactoryPathInfo) : Bool :=
  i._exists.isSome && i._is_dir.isSome && i._size.isSome && i._children.isSome

/-- The state a 404 answer leaves a fresh Status Cache in: existence known
false, every other field still unset. -/
def info404 (u : String) : ArtifactoryPathInfo :=
  { _uri := u, _exists := some false, _is_dir := none, _size := none,
    _children := none }

theorem applyFOp_fullyResolved (server : Server) (op : FOp)
    (i : ArtifactoryPathInfo) (h : fullyResolved i = true) (n : Nat) :
    ∃ r, applyFOp server op i n = (.ok r, i, n) := by
  obtain ⟨u, e, d, sz, ch⟩ := i
  simp only [fullyResolved, Bool.and_eq_true, Option.isSome_iff_exists] at h
  obtain ⟨⟨⟨⟨eb, he⟩, ⟨db, hd⟩⟩, ⟨szv, hsz⟩⟩, ⟨chv, hch⟩⟩ := h
  subst he; subst hd; subst hsz; subst hch
  cases op <;> rcases eb with _ | _ <;>
    simp [applyFOp, ArtifactoryPathInfo.exists', ArtifactoryPathInfo.is_dir,
      ArtifactoryPathInfo.is_file, ArtifactoryPathInfo.size,
      ArtifactoryPathInfo.children, pyNot]

theorem runFOps_fullyResolved (server : Server) (i : ArtifactoryPathInfo)
    (h : fullyResolved i = true) :
    ∀ (ops : List FOp) (n : Nat),
    ∃ rs, runFOps server ops i n = (.ok rs, i, n) := by
  intro ops
  induction ops with
  | nil => intro n; exact ⟨[], rfl⟩
  | cons op ops ih =>
    intro n
    obtain ⟨r, hr⟩ := applyFOp_fullyResolved server op i h n
    obtain ⟨rs, hrs⟩ := ih n
    exact ⟨r :: rs, by simp only [runFOps, hr, hrs]⟩

/-- C6 counterexample: on a fresh Status Cache whose query answers 404, a
subsequent `size()` call issues a second metadata request (total count 2, not
1) and silently returns Python `None` instead of signalling: the claim that no
operation re-queries after the single metadata query is false on the code. -/
theorem claim_C6_counterexample :
    runFOps server404 [FOp.fExists, FOp.fSize] (freshInfo "u") 0 =
      (.ok [FRes.b (some false), FRes.sz none], info404 "u", 2) := rfl

/-- C6 amended: after a 2xx metadata query every field is populated and no
subsequent operation (`exists()`, `is_dir()`, `is_file()`, `size()`,
`children()`) issues another request; after a 404, `exists()`, `is_dir()` and
`is_file()` issue no further request, but each `size()` call issues one more
request and silently returns `None`, and each `children()` call issues one
more request and then fails with a `TypeError`. -/
theorem claim_C6 :
    (∀ (server : Server) (i : ArtifactoryPathInfo) (n : Nat)
       (data : StorageData), server i._uri n = Response.ok data →
       fullyResolved (i._query server n).2.1 = true) ∧
    (∀ (server : Server) (i : ArtifactoryPathInfo), fullyResolved i = true →
       ∀ (ops : List FOp) (n : Nat),
       ∃ rs, runFOps server ops i n = (.ok rs, i, n)) ∧
    (∀ (server : Server) (u : String),
       (∀ m, server u m = Response.notFound) → ∀ n : Nat,
       ArtifactoryPathInfo.exists' server (info404 u) n =
         (.ok false, info404 u, n) ∧
       ArtifactoryPathInfo.is_dir server (info404 u) n =
         (.ok (some false), info404 u, n) ∧
       ArtifactoryPathInfo.is_file server (info404 u) n =
         (.ok false, info404 u, n) ∧
       ArtifactoryPathInfo.size server (info404 u) n =
         (.ok none, info404 u, n + 1) ∧
       ArtifactoryPathInfo.children server (info404 u) n =
         (.error .typeError, info404 u, n + 1)) := by
  refine ⟨?_, ?_, ?_⟩
  · intro server i n data hdata
    obtain ⟨u, e, d, sz, ch⟩ := i
    simp only at hdata
    simp [ArtifactoryPathInfo._query, hdata, fullyResolved]
  · exact fun server i h ops n => runFOps_fullyResolved server i h ops n
  · intro server u hserver n
    refine ⟨?_, ?_, ?_, ?_, ?_⟩ <;>
      simp [ArtifactoryPathInfo.exists', ArtifactoryPathInfo.is_dir,
        ArtifactoryPathInfo.is_file, ArtifactoryPathInfo.size,
        ArtifactoryPathInfo.children, ArtifactoryPathInfo._query, info404,
        hserver n, pyNot]

theorem claim_C6_witness :
    ArtifactoryPathInfo.exists' server404 (info404 "u") 5 =
      (.ok false, info404 "u", 5) ∧
    ArtifactoryPathInfo.is_dir server404 (info404 "u") 5 =
      (.ok (some false), info404 "u", 5) ∧
    ArtifactoryPathInfo.is_file server404 (info404 "u") 5 =
      (.ok false, info404 "u", 5) ∧
    ArtifactoryPathInfo.size server404 (info404 "u") 5 =
      (.ok none, info404 "u", 5 + 1) ∧
    ArtifactoryPathInfo.children server404 (info404 "u") 5 =
      (.error .typeError, info404 "u", 5 + 1) :=
  claim_C6.2.2 server404 "u" (fun _ => rfl) 5

/-- C9: between `ArtifactoryPath` instances, `__eq__` holds exactly when base
URIs and rendered path strings both match, and equal paths have equal hashes
(both derived from the same pair). -/
theorem claim_C9 :
    (∀ a b : ArtifactoryPath, ArtifactoryPath.eq a b = true ↔
       (a.base_uri = b.base_uri ∧ vfspath a = vfspath b)) ∧
    (∀ a b : ArtifactoryPath, ArtifactoryPath.eq a b = true →
       ArtifactoryPath.hashVal a = ArtifactoryPath.hashVal b) := by
  constructor
  · intro a b
    simp [ArtifactoryPath.eq]
  · intro a b h
    simp only [ArtifactoryPath.eq, Bool.and_eq_true, beq_iff_eq] at h
    simp [ArtifactoryPath.hashVal, h.1, h.2]

theorem claim_C9_witness :
    ArtifactoryPath.hashVal
      { _segments := ["/repo/dir"], _info := none,
        base_uri := "http://h/artifactory" } =
    ArtifactoryPath.hashVal
      { _segments := ["/repo/dir"],
        _info := some (freshInfo "http://h/artifactory/api/storage/repo/dir"),
        base_uri := "http://h/artifactory" } :=
  claim_C9.2
    { _segments := ["/repo/dir"], _info := none,
      base_uri := "http://h/artifactory" }
    { _segments := ["/repo/dir"],
      _info := some (freshInfo "http://h/artifactory/api/storage/repo/dir"),
      base_uri := "http://h/artifactory" }
    (by decide)

/-- C8: evaluating `iterdir()` on a freshly constructed path whose Status
Cache was never materialised: version 0.4.1 reads `self._info` (Python `None`)
instead of the lazily-creating `self.info` property, so the call fails with an
`AttributeError` and issues no request, instead of performing the metadata
query and raising the specified not-found / not-a-directory errors. -/
theorem claim_C8_bug :
    ArtifactoryPath.iterdir server404
      { _segments := ["/repo"], _info := none,
        base_uri := "http://h/artifactory" } 0 =
      (.error .attributeError,
       { _segments := ["/repo"], _info := none,
         base_uri := "http://h/artifactory" }, 0) ∧
    ArtifactoryPath.iterdir server404
      { _segments := ["/repo"],
        _info := some (freshInfo "http://h/artifactory/api/storage/repo"),
        base_uri := "http://h/artifactory" } 0 =
      (.error (.oserror 2 "File not found" "http://h/artifactory/repo"),
       { _segments := ["/repo"],
         _info := some (info404 "http://h/artifactory/api/storage/repo"),
         base_uri := "http://h/artifactory" }, 1) := by
  exact ⟨rfl, rfl⟩

/-- The final component of a rendered path: the characters after the last
slash. -/
def nameOf (s : String) : String :=
  String.mk ((s.data.reverse.takeWhile fun c => c != '/').reverse)

theorem nameOf_append (t : String) (c : Char) (h : (c != '/') = true) :
    nameOf (t ++ String.mk ['/', c]) = String.mk [c] := by
  unfold nameOf
  have hd : (t ++ String.mk ['/', c]).data = t.data ++ ['/', c] := by
    simp [String.data_append]
  rw [hd]
  simp [List.takeWhile_cons, h]

/-- A child path as `iterdir` builds it from a listing entry: one segment
(parent rendered path plus entry URI) and a Status Cache seeded with
existence and the listed kind. -/
def seededChild (B pv u name : String) (folder : Bool) : ArtifactoryPath :=
  { _segments := [pv ++ name],
    _info := some (ArtifactoryPathInfo.init (u ++ name) (some true) (some folder)),
    base_uri := B }

/-- The cache state the `{children: [/a dir, /b file]}` listing leaves. -/
def dirInfoAB (u : String) : ArtifactoryPathInfo :=
  { _uri := u, _exists := some true, _is_dir := some true, _size := some 0,
    _children := some [{ uri := "/a", folder := true },
                       { uri := "/b", folder := false }] }

/-- The parent path after the `{children: [/a, /b]}` listing was absorbed. -/
def parentAB (ss : List String) (u B : String) : ArtifactoryPath :=
  { _segments := ss, _info := some (dirInfoAB u), base_uri := B }

/-- C2: when the metadata query answers with the directory listing
`{children: [{uri: "/a", folder: true}, {uri: "/b", folder: false}]}`,
`iterdir()` issues exactly one request and yields exactly two child paths
whose final components are `a` and `b`, with caches seeded from the listing,
so that `a.is_dir()` returns `True` and `b.is_dir()` returns `False` with no
request beyond the parent single query. -/
theorem claim_C2 (server : Server) (B u : String) (ss : List String) (n0 : Nat)
    (hserver : ∀ m, server u m = Response.ok
      { size := none,
        children := some [{ uri := "/a", folder := true },
                          { uri := "/b", folder := false }] }) :
    ArtifactoryPath.iterdir server
      { _segments := ss, _info := some (freshInfo u), base_uri := B } n0 =
      (.ok [seededChild B (vfspath (parentAB ss u B)) u "/a" true,
            seededChild B (vfspath (parentAB ss u B)) u "/b" false],
       parentAB ss u B, n0 + 1) ∧
    nameOf (vfspath (seededChild B (vfspath (parentAB ss u B)) u "/a" true)) = "a" ∧
    nameOf (vfspath (seededChild B (vfspath (parentAB ss u B)) u "/b" false)) = "b" ∧
    ArtifactoryPath.is_dir server
      (seededChild B (vfspath (parentAB ss u B)) u "/a" true) (n0 + 1) =
      (.ok (some true),
       seededChild B (vfspath (parentAB ss u B)) u "/a" true, n0 + 1) ∧
    ArtifactoryPath.is_dir server
      (seededChild B (vfspath (parentAB ss u B)) u "/b" false) (n0 + 1) =
      (.ok (some false),
       seededChild B (vfspath (parentAB ss u B)) u "/b" false, n0 + 1) := by
  refine ⟨?_, ?_, ?_, ?_, ?_⟩
  · simp [ArtifactoryPath.iterdir, ArtifactoryPathInfo.exists',
      ArtifactoryPathInfo.is_dir, ArtifactoryPathInfo.children,
      ArtifactoryPathInfo._query, freshInfo, ArtifactoryPathInfo.init,
      hserver n0, truthy, ArtifactoryPath.with_segments, seededChild,
      dirInfoAB, parentAB, vfspath]
  · exact nameOf_append _ 'a' (by decide)
  · exact nameOf_append _ 'b' (by decide)
  · simp [ArtifactoryPath.is_dir, ArtifactoryPath.info, seededChild,
      ArtifactoryPathInfo.is_dir, ArtifactoryPathInfo.exists',
      ArtifactoryPathInfo.init]
  · simp [ArtifactoryPath.is_dir, ArtifactoryPath.info, seededChild,
      ArtifactoryPathInfo.is_dir, ArtifactoryPathInfo.exists',
      ArtifactoryPathInfo.init]

theorem claim_C2_witness :
    ArtifactoryPath.iterdir serverDirAB
      { _segments := ["/repo"], _info := some (freshInfo "x"), base_uri := "h" }
      0 =
      (.ok [seededChild "h" (vfspath (parentAB ["/repo"] "x" "h")) "x" "/a" true,
            seededChild "h" (vfspath (parentAB ["/repo"] "x" "h")) "x" "/b" false],
       parentAB ["/repo"] "x" "h", 0 + 1) ∧
    nameOf (vfspath (seededChild "h" (vfspath (parentAB ["/repo"] "x" "h"))
      "x" "/a" true)) = "a" ∧
    nameOf (vfspath (seededChild "h" (vfspath (parentAB ["/repo"] "x" "h"))
      "x" "/b" false)) = "b" ∧
    ArtifactoryPath.is_dir serverDirAB
      (seededChild "h" (vfspath (parentAB ["/repo"] "x" "h")) "x" "/a" true)
      (0 + 1) =
      (.ok (some true),
       seededChild "h" (vfspath (parentAB ["/repo"] "x" "h")) "x" "/a" true,
       0 + 1) ∧
    ArtifactoryPath.is_dir serverDirAB
      (seededChild "h" (vfspath (parentAB ["/repo"] "x" "h")) "x" "/b" false)
      (0 + 1) =
      (.ok (some false),
       seededChild "h" (vfspath (parentAB ["/repo"] "x" "h")) "x" "/b" false,
       0 + 1) :=
  claim_C2 serverDirAB "h" "x" ["/repo"] 0 (fun _ => rfl)

theorem string_eq_of_data {a b : String} (hab : a.data = b.data) : a = b := by
  cases a; cases b; exact congrArg String.mk hab

theorem splitOnce_sound (sep : List Char) :
    ∀ (l h t : List Char), splitOnce sep l = some (h, t) → l = h ++ sep ++ t := by
  intro l
  induction l with
  | nil => intro h t hs; simp [splitOnce] at hs
  | cons c cs ih =>
    intro h t hs
    rw [splitOnce] at hs
    by_cases hp : sep.isPrefixOf (c :: cs)
    · rw [if_pos hp] at hs
      simp only [Option.some.injEq, Prod.mk.injEq] at hs
      obtain ⟨hh, ht⟩ := hs
      subst hh
      subst ht
      have hpre := (List.isPrefixOf_iff_prefix).mp hp
      have := (List.prefix_iff_eq_append).mp hpre
      simpa using this.symm
    · rw [if_neg hp] at hs
      rcases hrec : splitOnce sep cs with _ | ⟨h', t'⟩
      · rw [hrec] at hs; simp at hs
      · rw [hrec] at hs
        simp only [Option.some.injEq, Prod.mk.injEq] at hs
        obtain ⟨hh, ht⟩ := hs
        have hcs := ih h' t' hrec
        subst hh
        subst ht
        simp [hcs]

theorem splitOnce_isSome (sep : List Char) (hsep : sep ≠ []) :
    ∀ (h t l : List Char), l = h ++ sep ++ t → (splitOnce sep l).isSome = true := by
  intro h
  induction h with
  | nil =>
    intro t l hl
    rcases sep with _ | ⟨s, ss⟩
    · exact absurd rfl hsep
    · subst hl
      simp only [List.nil_append]
      rw [show (s :: ss) ++ t = s :: (ss ++ t) from rfl, splitOnce]
      rw [if_pos ?_]
      · simp
      · exact (List.isPrefixOf_iff_prefix).mpr ⟨t, rfl⟩
  | cons c h' ih =>
    intro t l hl
    subst hl
    rw [show (c :: h') ++ sep ++ t = c :: (h' ++ sep ++ t) from rfl, splitOnce]
    by_cases hp : sep.isPrefixOf (c :: (h' ++ sep ++ t))
    · rw [if_pos hp]; simp
    · rw [if_neg hp]
      have hrec := ih t (h' ++ sep ++ t) rfl
      rcases hs : splitOnce sep (h' ++ sep ++ t) with _ | ⟨h'', t''⟩
      · rw [hs] at hrec; simp at hrec
      · simp

/-- C3: `from_uri` round-trips with `as_uri` on every URI containing the
literal `/artifactory/` marker; in particular `from_uri` on
`http://artifactory:8080/artifactory/repo/dir/file` yields base URI
`http://artifactory:8080/artifactory` with rendered path `/repo/dir/file`,
and `as_uri` on that result returns the original string exactly. -/
theorem claim_C3 :
    (∀ (uri h t : String), uri = h ++ "/artifactory/" ++ t →
       ∃ p, ArtifactoryPath.from_uri uri = some p ∧ p.as_uri = uri) ∧
    ArtifactoryPath.from_uri
        "http://artifactory:8080/artifactory/repo/dir/file" =
      some ⟨["/repo/dir/file"], none, "http://artifactory:8080/artifactory"⟩ ∧
    vfspath ⟨["/repo/dir/file"], none, "http://artifactory:8080/artifactory"⟩ =
      "/repo/dir/file" ∧
    ArtifactoryPath.as_uri
        ⟨["/repo/dir/file"], none, "http://artifactory:8080/artifactory"⟩ =
      "http://artifactory:8080/artifactory/repo/dir/file" := by
  refine ⟨?_, ?_, rfl, rfl⟩
  · intro uri h t huri
    have huri_data : uri.data = h.data ++ "/artifactory/".data ++ t.data := by
      rw [huri]; simp [String.data_append]
    have hsome := splitOnce_isSome "/artifactory/".data (by decide) h.data
      t.data uri.data huri_data
    obtain ⟨⟨h', t'⟩, heq⟩ := Option.isSome_iff_exists.mp hsome
    have hsound := splitOnce_sound "/artifactory/".data uri.data h' t' heq
    refine ⟨⟨["/" ++ String.mk t'], none, String.mk h' ++ "/artifactory"⟩,
      ?_, ?_⟩
    · simp [ArtifactoryPath.from_uri, pySplit1, heq]
    · apply string_eq_of_data
      have hv : vfspath ⟨["/" ++ String.mk t'], none,
          String.mk h' ++ "/artifactory"⟩ = "/" ++ String.mk t' := rfl
      simp only [ArtifactoryPath.as_uri, hv, String.data_append]
      rw [hsound]
      have hmid : "/artifactory".data ++ "/".data = "/artifactory/".data := by
        decide
      simp [← hmid, String.data_append]
  · rfl

theorem claim_C3_witness :
    ∃ p, ArtifactoryPath.from_uri "http://h/artifactory/repo" = some p ∧
      p.as_uri = "http://h/artifactory/repo" :=
  claim_C3.1 "http://h/artifactory/repo" "http://h" "repo" rfl

/-- A legacy metadata server that always answers 404. -/
def legacyServer404 : legacy.Server := fun _ _ => legacy.Response.notFound

/-- A legacy metadata server that always answers with a directory body. -/
def legacyServerDir : legacy.Server :=
  fun _ _ => legacy.Response.ok
    { size := none, children := none, created := "c", lastModified := "m",
      createdBy := "cb", modifiedBy := "mb", checksums := none,
      mimeType := none }

/-- A content server that always answers 404. -/
def cserver404 : CServer := fun _ _ => ContentResponse.notFound

/-- C7: opening for reading a path whose metadata reports a directory fails
with an is-a-directory error; opening a nonexistent path for reading fails
with a not-found error (both in the earlier revision's `open` and, for the
content GET, in version 0.4.1's reader); and any open mode containing a write
flag (`w`, `a`, `x` or `+`) fails as unsupported for every path with no
request issued. -/
theorem claim_C7 :
    (∀ (server : legacy.Server) (cserver : CServer)
       (p : legacy.ArtifactoryPath) (n : Nat) (data : legacy.StorageJson),
       server (p.base_uri ++ "/api/storage" ++ p.str) n = .ok data →
       data.size = none →
       legacy.ArtifactoryPath.open' server cserver p "r" (-1) n =
         (.error (.oserror 21 "Is a directory" p.str), n + 1)) ∧
    (∀ (server : legacy.Server) (cserver : CServer)
       (p : legacy.ArtifactoryPath) (n : Nat),
       server (p.base_uri ++ "/api/storage" ++ p.str) n = .notFound →
       legacy.ArtifactoryPath.open' server cserver p "r" (-1) n =
         (.error (.oserror 2 "File not found" p.str), n + 1)) ∧
    (∀ (mode : String), (∃ c, c ∈ mode.data ∧ c ∈ ['w', 'a', 'x', '+']) →
       ∀ (server : legacy.Server) (cserver : CServer)
         (p : legacy.ArtifactoryPath) (buffering : Int) (n : Nat),
       ∃ msg, legacy.ArtifactoryPath.open' server cserver p mode buffering n =
         (.error (.unsupported msg), n)) ∧
    (∀ (cserver : CServer) (p : ArtifactoryPath) (n : Nat),
       cserver p.as_uri n = ContentResponse.notFound →
       ArtifactoryPath.open_reader cserver p n =
         (.error (.oserror 2 "File not found" (vfspath p)), n + 1)) := by
  refine ⟨?_, ?_, ?_, ?_⟩
  · intro server cserver p n data hmeta hsize
    simp [legacy.ArtifactoryPath.open', legacy.ArtifactoryPath.stat, hmeta,
      legacy.ArtifactoryStat.from_storage_response, hsize]
  · intro server cserver p n hmeta
    simp [legacy.ArtifactoryPath.open', legacy.ArtifactoryPath.stat, hmeta]
  · intro mode hmode server cserver p buffering n
    by_cases hb : buffering = -1
    · subst hb
      refine ⟨"Unsupported mode: " ++ mode, ?_⟩
      unfold legacy.ArtifactoryPath.open'
      rw [if_neg (by simp)]
      rw [if_neg ?hact]
      case hact =>
        intro hact
        obtain ⟨c, hcmem, hcw⟩ := hmode
        have hcf : c ∈ mode.data.filter fun c =>
            !(c ∈ (['b', 't', 'U'] : List Char)) := by
          refine List.mem_filter.mpr ⟨hcmem, ?_⟩
          simp only [List.mem_cons, List.not_mem_nil] at hcw
          rcases hcw with rfl | rfl | rfl | rfl | h0
          · decide
          · decide
          · decide
          · decide
          · exact absurd h0 (by simp)
        have hdata := congrArg String.data hact
        rw [show (String.mk (mode.data.filter fun c =>
            !(c ∈ (['b', 't', 'U'] : List Char)))).data =
            mode.data.filter fun c => !(c ∈ (['b', 't', 'U'] : List Char))
            from rfl] at hdata
        rw [show ("r" : String).data = ['r'] from rfl] at hdata
        rw [hdata] at hcf
        simp only [List.mem_singleton] at hcf
        subst hcf
        simp at hcw
    · refine ⟨"Unsupported buffering: " ++ toString buffering, ?_⟩
      simp [legacy.ArtifactoryPath.open', hb]
  · intro cserver p n hcontent
    simp [ArtifactoryPath.open_reader, hcontent]

theorem claim_C7_witness :
    legacy.ArtifactoryPath.open' legacyServerDir cserver404
      ⟨"/repo", "http://h/artifactory"⟩ "r" (-1) 0 =
      (.error (.oserror 21 "Is a directory" "/repo"), 0 + 1) ∧
    legacy.ArtifactoryPath.open' legacyServer404 cserver404
      ⟨"/repo", "http://h/artifactory"⟩ "r" (-1) 0 =
      (.error (.oserror 2 "File not found" "/repo"), 0 + 1) ∧
    (∃ msg, legacy.ArtifactoryPath.open' legacyServer404 cserver404
      ⟨"/repo", "http://h/artifactory"⟩ "w" (-1) 0 =
      (.error (.unsupported msg), 0)) :=
  ⟨claim_C7.1 legacyServerDir cserver404 ⟨"/repo", "http://h/artifactory"⟩ 0
     { size := none, children := none, created := "c", lastModified := "m",
       createdBy := "cb", modifiedBy := "mb", checksums := none,
       mimeType := none } rfl rfl,
   claim_C7.2.1 legacyServer404 cserver404 ⟨"/repo", "http://h/artifactory"⟩ 0
     rfl,
   claim_C7.2.2.1 "w" ⟨'w', by decide, by decide⟩ legacyServer404 cserver404
     ⟨"/repo", "http://h/artifactory"⟩ (-1) 0⟩
